import Mathlib

/-!
A shallow embedding of the medical-blind-spot analysis pipeline
(quality scoring, demographic extraction, coverage aggregation, blind-spot
detection, synthesis) together with proofs about its behaviour.

Modelling conventions:
* JavaScript numbers are modelled as exact rationals (`ℚ`); IEEE-754 rounding
  is not modelled.  A JavaScript number that may be `NaN` is modelled as
  `Option ℚ`, with `none` standing for `NaN`; arithmetic and comparisons
  propagate `none` exactly as JavaScript propagates `NaN` (every comparison
  with `NaN` is false).
* JavaScript strings are modelled as `String` / `List Char`;
  `String.prototype.includes` is `jsIncludes`, `toLowerCase` is `lowerStr`
  (the texts involved are ASCII), `parseInt` is `parseIntJs` (decimal form;
  the hexadecimal `0x` form is irrelevant for publication dates),
  `split(/\s+/)` is `splitWs` (empty fragments produced by leading or
  trailing whitespace are dropped; they are filtered out by the length
  filter in the only use site anyway).
* `Record<string, number>` values with a fixed key set are modelled as
  functions out of a finite bucket type.
* `CURRENT_YEAR` (`new Date().getFullYear()`) is passed as an explicit
  `currentYear` parameter.
-/

namespace MedicalBlindSpot

/-! ## Strings -/

/-- Lower-case every character (the JS `toLowerCase` on ASCII text). -/
def lowerStr (s : List Char) : List Char := s.map Char.toLower

/-- `beginsWith needle hay` : does `hay` start with `needle`? -/
def beginsWith : List Char → List Char → Bool
  | [], _ => true
  | _ :: _, [] => false
  | a :: as, b :: bs => a == b && beginsWith as bs

/-- JS `hay.includes(needle)` : substring containment. -/
def jsIncludes (hay needle : List Char) : Bool :=
  if beginsWith needle hay then true
  else
    match hay with
    | [] => false
    | _ :: t => jsIncludes t needle

def isDigitCh (c : Char) : Bool := '0' ≤ c && c ≤ '9'

def digitVal (c : Char) : ℕ := c.toNat - '0'.toNat

/-- JS `parseInt` (decimal): skip leading whitespace, optional sign, then
read leading digits; `none` (NaN) if there are no digits. -/
def parseIntJs (s : List Char) : Option ℤ :=
  let t := s.dropWhile (fun c => c.isWhitespace)
  let p : ℤ × List Char :=
    match t with
    | '-' :: r => (-1, r)
    | '+' :: r => (1, r)
    | r => (1, r)
  let digits := p.2.takeWhile isDigitCh
  if digits.isEmpty then none
  else some (p.1 * (digits.foldl (fun n c => 10 * n + (digitVal c : ℤ)) 0))

/-- JS `s.split(/\s+/)`, keeping the non-empty fragments. -/
def splitWsGo : List Char → List Char → List (List Char)
  | acc, [] => if acc.isEmpty then [] else [acc.reverse]
  | acc, c :: t =>
    if c.isWhitespace then
      if acc.isEmpty then splitWsGo [] t else acc.reverse :: splitWsGo [] t
    else splitWsGo (c :: acc) t

def splitWs (s : List Char) : List (List Char) := splitWsGo [] s

/-! ## JS numbers with NaN -/

/-- A JS number that may be `NaN`: `none` is `NaN`. -/
abbrev JsNum := Option ℚ

/-- Addition, propagating NaN. -/
def nanAdd : JsNum → JsNum → JsNum
  | some a, some b => some (a + b)
  | _, _ => none

/-- Multiplication by a constant, propagating NaN. -/
def nanMul (c : ℚ) : JsNum → JsNum
  | some a => some (c * a)
  | none => none

/-- JS `x >= t` : false when `x` is NaN. -/
def nanGe (x : JsNum) (t : ℚ) : Bool :=
  match x with
  | some a => decide (t ≤ a)
  | none => false

/-- JS `x < t` : false when `x` is NaN. -/
def nanLt (x : JsNum) (t : ℚ) : Bool :=
  match x with
  | some a => decide (a < t)
  | none => false

/-- `x` is a non-NaN number lying in the closed interval `[0, 1]`. -/
def inUnit (x : JsNum) : Prop := ∃ q : ℚ, x = some q ∧ 0 ≤ q ∧ q ≤ 1

/-! ## Data model (src/domain/types.ts) -/

inductive Source
  | PubMed
  | GoogleScholar
  | ArXiv
  | Other
deriving DecidableEq, Repr

structure PaperMetadata where
  doi : String
  title : String
  authors : List String
  journal : String
  publicationDate : String
  abstract : String
  source : Source
  url : Option String
  citations : Option ℕ
deriving DecidableEq, Repr

structure QualityAssessment where
  paperId : String
  overallScore : JsNum
  sourceScore : ℚ
  recencyScore : JsNum
  textRelevanceScore : ℚ
  inclusionReason : Option String
  exclusionReason : Option String
deriving DecidableEq, Repr

/-! ## Quality assessment agent (src/agents/qualityAssessmentAgent.ts) -/

/-- `QUALITY_THRESHOLD = 0.5`. -/
def QUALITY_THRESHOLD : ℚ := 1/2

def calculateSourceScore (paper : PaperMetadata) : ℚ :=
  match paper.source with
  | .PubMed => 9/10
  | .ArXiv => 6/10
  | .GoogleScholar => 7/10
  | .Other => 1/2

/-- `calculateRecencyScore`: parse the year before the first `-`; when the
year is NaN every `age <= k` comparison is false and the final
`Math.max(0.2, 1.0 - age / 20)` is `Math.max(0.2, NaN) = NaN`. -/
def calculateRecencyScore (currentYear : ℤ) (publicationDate : String) : JsNum :=
  match parseIntJs (publicationDate.data.takeWhile (fun c => !(c == '-'))) with
  | none => none
  | some year =>
    let age : ℤ := currentYear - year
    if age ≤ 2 then some 1
    else if age ≤ 5 then some (4/5)
    else if age ≤ 10 then some (3/5)
    else if age ≤ 15 then some (2/5)
    else some (max (1/5) (1 - (age : ℚ) / 20))

/-- `calculateTextRelevanceScore`: query terms of length `> 3` other than
`"disease"`; 2 points for a title match and 1 for an abstract match per
term; normalised by `3 * termCount`, clamped to 1; defaults to `0.5` when
there are no usable terms. -/
def calculateTextRelevanceScore (paper : PaperMetadata) (diseaseQuery : String) : ℚ :=
  let queryLower := lowerStr diseaseQuery.data
  let titleLower := lowerStr paper.title.data
  let abstractLower := lowerStr paper.abstract.data
  let queryTerms :=
    ((splitWs queryLower).filter (fun term => decide (3 < term.length))).filter
      (fun term => term != "disease".data)
  let matchCount : ℕ :=
    (queryTerms.map (fun term =>
      (if jsIncludes titleLower term then 2 else 0) +
      (if jsIncludes abstractLower term then 1 else 0))).sum
  let maxPossibleScore := queryTerms.length * 3
  if 0 < maxPossibleScore then min 1 ((matchCount : ℚ) / (maxPossibleScore : ℚ))
  else 1/2

/-- JS `paper.doi || paper.url || paper.title` (empty strings are falsy). -/
def paperIdOf (paper : PaperMetadata) : String :=
  if paper.doi = "" then
    match paper.url with
    | some u => if u = "" then paper.title else u
    | none => paper.title
  else paper.doi

/-- `assessPaper`.  The rationale strings elide the interpolated numeric
percentages of the source (no claim concerns their text); their presence
conditions (`overall >= 0.5` for inclusion, `overall < 0.5` for exclusion,
both failing on NaN) are modelled exactly. -/
def assessPaper (currentYear : ℤ) (paper : PaperMetadata) (diseaseQuery : String) :
    QualityAssessment :=
  let sourceScore := calculateSourceScore paper
  let recencyScore := calculateRecencyScore currentYear paper.publicationDate
  let textRelevanceScore := calculateTextRelevanceScore paper diseaseQuery
  let overallScore :=
    nanAdd (nanAdd (nanMul (2/5) recencyScore) (nanMul (2/5) (some textRelevanceScore)))
      (nanMul (1/5) (some sourceScore))
  { paperId := paperIdOf paper
    overallScore := overallScore
    sourceScore := sourceScore
    recencyScore := recencyScore
    textRelevanceScore := textRelevanceScore
    inclusionReason :=
      if nanGe overallScore QUALITY_THRESHOLD then some "High relevance and recency"
      else none
    exclusionReason :=
      if nanLt overallScore QUALITY_THRESHOLD then some "Overall score below threshold 0.5"
      else none }

structure QualityAgentResult where
  qualityAssessments : List (String × QualityAssessment)
  highQualityPapers : List PaperMetadata

/-- `qualityAssessmentAgent`: assess every paper, keep those with
`overallScore >= QUALITY_THRESHOLD`.  The `qualityAssessments` record is
modelled as an association list in iteration order (later duplicate ids
overwrite earlier ones in JS; no claim concerns duplicate ids). -/
def qualityAssessmentAgent (currentYear : ℤ) (papers : List PaperMetadata)
    (disease : String) : QualityAgentResult :=
  { qualityAssessments :=
      papers.map (fun p =>
        let a := assessPaper currentYear p disease
        (a.paperId, a))
    highQualityPapers :=
      papers.filter (fun p =>
        nanGe (assessPaper currentYear p disease).overallScore QUALITY_THRESHOLD) }

/-! ## Population analysis agent (src/agents/populationAnalysisAgent.ts)

Each `Record<string, number>` of per-paper counts or percentages has a fixed
key set in the source (all keys are initialised up front), modelled as a
function out of a per-dimension bucket type. -/

inductive AgeBucket
  | a0_18
  | a18_65
  | a65_75
  | over75
  | notSpecified
deriving DecidableEq, Repr

inductive GenderBucket
  | male
  | female
  | notSpecified
deriving DecidableEq, Repr

inductive PregnancyBucket
  | pregnant
  | notPregnant
  | notSpecified
deriving DecidableEq, Repr

inductive GeoBucket
  | northAmerica
  | europe
  | asia
  | other
  | notSpecified
deriving DecidableEq, Repr

/-- `counts[k] = v` on a record modelled as a function. -/
def setAt {β : Type} [DecidableEq β] (f : β → ℕ) (k : β) (v : ℕ) : β → ℕ :=
  fun b => if b = k then v else f b

/-- Does any keyword of the pattern occur in the (lower-cased) text? -/
def patMatched {β : Type} (lower : List Char) (pat : β × List (List Char)) : Bool :=
  pat.2.any (fun keyword => jsIncludes lower keyword)

/-- One iteration of the `for (const { bucket, keywords } of patterns)` loop:
the inner keyword loop increments `counts[bucket]` at most once (it `break`s
after the first matching keyword) and sets `foundAny`. -/
def patStep {β : Type} [DecidableEq β] (lower : List Char) :
    ((β → ℕ) × Bool) → β × List (List Char) → ((β → ℕ) × Bool) :=
  fun acc pat =>
    if patMatched lower pat then (setAt acc.1 pat.1 (acc.1 pat.1 + 1), true)
    else acc

/-- The shared shape of `extractAgeCoverage` and `extractGeographyCoverage`:
lower-case the text, run the pattern loop, and set `not_specified` to 1 when
no bucket matched. -/
def patternExtract {β : Type} [DecidableEq β] (patterns : List (β × List (List Char)))
    (nsKey : β) (text : List Char) : β → ℕ :=
  if (patterns.foldl (patStep (lowerStr text)) (fun _ => 0, false)).2 then
    (patterns.foldl (patStep (lowerStr text)) (fun _ => 0, false)).1
  else setAt (patterns.foldl (patStep (lowerStr text)) (fun _ => 0, false)).1 nsKey 1

def agePatterns : List (AgeBucket × List (List Char)) :=
  [ (.a0_18, ["child".data, "pediatric".data, "adolescent".data, "infant".data,
      "youth".data, "under 18".data]),
    (.a18_65, ["adult".data, "young adult".data, "middle-aged".data, "18-65".data,
      "working age".data]),
    (.a65_75, ["elderly".data, "older adult".data, "65-75".data, "senior".data,
      "aged 65".data]),
    (.over75, ["very old".data, "over 75".data, "aged 75".data, ">75".data,
      "oldest old".data, "over 80".data]) ]

def extractAgeCoverage (text : List Char) : AgeBucket → ℕ :=
  patternExtract agePatterns .notSpecified text

def maleKeywords : List (List Char) :=
  ["male".data, "men ".data, " men".data, "man ".data, "gentleman".data]

def femaleKeywords : List (List Char) :=
  ["female".data, "women".data, "woman".data, "lady".data, "ladies".data]

/-- `extractGenderCoverage`: separate `foundMale` / `foundFemale` flags, each
count set to 1 by assignment; `not_specified` set when neither was found. -/
def extractGenderCoverage (text : List Char) : GenderBucket → ℕ :=
  let lower := lowerStr text
  let foundMale := maleKeywords.any (fun keyword => jsIncludes lower keyword)
  let foundFemale := femaleKeywords.any (fun keyword => jsIncludes lower keyword)
  fun b =>
    match b with
    | .male => if foundMale then 1 else 0
    | .female => if foundFemale then 1 else 0
    | .notSpecified => if !foundMale && !foundFemale then 1 else 0

def pregnancyKeywords : List (List Char) :=
  ["pregnan".data, "gestat".data, "maternal".data, "expectant".data]

/-- `extractPregnancyCoverage`: `pregnant = 1` when a pregnancy keyword
occurs, otherwise `not_specified = 1`; `not_pregnant` is never set. -/
def extractPregnancyCoverage (text : List Char) : PregnancyBucket → ℕ :=
  let lower := lowerStr text
  let foundPregnancy := pregnancyKeywords.any (fun keyword => jsIncludes lower keyword)
  fun b =>
    match b with
    | .pregnant => if foundPregnancy then 1 else 0
    | .notPregnant => 0
    | .notSpecified => if foundPregnancy then 0 else 1

def geoPatterns : List (GeoBucket × List (List Char)) :=
  [ (.northAmerica, ["united states".data, "usa".data, "u.s.".data, "canada".data,
      "mexico".data, "american".data]),
    (.europe, ["europe".data, "uk".data, "united kingdom".data, "germany".data,
      "france".data, "italy".data, "spain".data, "european".data]),
    (.asia, ["asia".data, "china".data, "japan".data, "india".data, "korea".data,
      "asian".data, "chinese".data, "japanese".data]),
    (.other, ["africa".data, "australia".data, "south america".data, "brazil".data,
      "middle east".data]) ]

def extractGeographyCoverage (text : List Char) : GeoBucket → ℕ :=
  patternExtract geoPatterns .notSpecified text

/-- The text handed to each extractor: `` `${paper.title} ${paper.abstract}` ``. -/
def paperText (paper : PaperMetadata) : List Char :=
  (paper.title ++ " " ++ paper.abstract).data

/-- JS `Math.round` (round half towards positive infinity). -/
def jsRound (q : ℚ) : ℤ := ⌊q + 1/2⌋

/-- `aggregateCoverage`: sum the per-paper counts for a bucket and convert to
`Math.round((count / total) * 100)`.  Only called with a non-empty paper
list (in JS a zero `total` would give NaN percentages; the agent guards the
empty case before calling this). -/
def aggregateCoverage {β : Type} (papers : List PaperMetadata)
    (extractor : List Char → β → ℕ) : β → ℤ :=
  fun b =>
    jsRound ((((papers.map (fun p => extractor (paperText p) b)).sum : ℚ)
      / (papers.length : ℚ)) * 100)

inductive Severity
  | low
  | medium
  | high
  | critical
deriving DecidableEq, Repr

structure BlindSpot where
  category : String
  gap : String
  severity : Severity
  details : Option String
deriving DecidableEq, Repr

structure PopulationCoverage where
  age : AgeBucket → ℤ
  gender : GenderBucket → ℤ
  pregnancyStatus : PregnancyBucket → ℤ
  geography : GeoBucket → ℤ

/-- `detectBlindSpots`: the threshold rules, in source order.  The two
`details` texts that interpolate a percentage are built by concatenation;
the "Poor gender reporting" details paraphrases the source's "don't" as
"do not".  `pregnancyStatus` and `geography` are always present in the
coverage produced by this agent, so their JS truthiness guards always pass. -/
def detectBlindSpots (coverage : PopulationCoverage) : List BlindSpot :=
  (if coverage.age .a0_18 = 0 then
    [⟨"age", "No coverage of pediatric populations (0-18 years)", .critical,
      some "Children and adolescents are completely absent from the research"⟩]
  else if coverage.age .a0_18 < 10 then
    [⟨"age", "Very low coverage of pediatric populations", .high,
      some ("Only " ++ toString (coverage.age .a0_18) ++
        "% of studies include children/adolescents")⟩]
  else [])
  ++ (if coverage.age .over75 = 0 then
    [⟨"age", "No coverage of very elderly populations (>75 years)", .critical,
      some "The oldest demographic is completely absent from the research"⟩]
  else if coverage.age .over75 < 10 then
    [⟨"age", "Very low coverage of very elderly populations", .high,
      some ("Only " ++ toString (coverage.age .over75) ++
        "% of studies include people over 75")⟩]
  else [])
  ++ (if 70 < coverage.gender .notSpecified then
    [⟨"gender", "Poor gender reporting in research", .high,
      some (toString (coverage.gender .notSpecified) ++
        "% of studies do not specify gender demographics")⟩]
  else [])
  ++ (if coverage.gender .female = 0 then
    [⟨"gender", "No female representation", .critical, none⟩]
  else [])
  ++ (if coverage.gender .male = 0 then
    [⟨"gender", "No male representation", .critical, none⟩]
  else [])
  ++ (if coverage.pregnancyStatus .pregnant = 0 then
    [⟨"pregnancy", "No coverage of pregnant populations", .critical,
      some "Pregnant women are excluded from all research"⟩]
  else [])
  ++ (let specified := 100 - coverage.geography .notSpecified
    (if specified < 30 then
      [⟨"geography", "Poor geographic diversity reporting", .medium,
        some ("Only " ++ toString specified ++ "% of studies specify geographic regions")⟩]
    else [])
    ++ (if coverage.geography .asia = 0 then
      [⟨"geography", "No Asian population representation", .high,
        some "Studies from Asia or including Asian populations are absent"⟩]
    else []))

structure AnalysisResult where
  totalPapersAnalyzed : ℕ
  populationCoverage : PopulationCoverage
  blindSpots : List BlindSpot

/-- The sentinel result returned when there are no high-quality papers. -/
def emptyAnalysisResult : AnalysisResult :=
  { totalPapersAnalyzed := 0
    populationCoverage :=
      { age := fun b => match b with | .notSpecified => 100 | _ => 0
        gender := fun b => match b with | .notSpecified => 100 | _ => 0
        pregnancyStatus := fun b => match b with | .notSpecified => 100 | _ => 0
        geography := fun b => match b with | .notSpecified => 100 | _ => 0 }
    blindSpots :=
      [⟨"data", "No analyzable papers available", .critical,
        some "Cannot perform population analysis without high-quality papers"⟩] }

/-- The `populationCoverage` record built from the four aggregations. -/
def analysisCoverage (papers : List PaperMetadata) : PopulationCoverage :=
  { age := aggregateCoverage papers extractAgeCoverage
    gender := aggregateCoverage papers extractGenderCoverage
    pregnancyStatus := aggregateCoverage papers extractPregnancyCoverage
    geography := aggregateCoverage papers extractGeographyCoverage }

/-- `populationAnalysisAgent` on the high-quality paper list of the state
(a missing or empty list takes the sentinel branch). -/
def populationAnalysisAgent (highQualityPapers : List PaperMetadata) : AnalysisResult :=
  if highQualityPapers.isEmpty then emptyAnalysisResult
  else
    { totalPapersAnalyzed := highQualityPapers.length
      populationCoverage := analysisCoverage highQualityPapers
      blindSpots := detectBlindSpots (analysisCoverage highQualityPapers) }

/-! ## Synthesis agent (src/agents/synthesisAgent.ts) -/

/-- `severityOrder = { critical: 0, high: 1, medium: 2, low: 3 }`. -/
def severityOrder : Severity → ℕ
  | .critical => 0
  | .high => 1
  | .medium => 2
  | .low => 3

/-- Stable insertion of a blind spot into an already-sorted list: the new
element goes before the first element of strictly larger rank, hence after
nothing of equal rank that was already there. -/
def sInsert (x : BlindSpot) : List BlindSpot → List BlindSpot
  | [] => [x]
  | y :: ys =>
    if severityOrder x.severity ≤ severityOrder y.severity then x :: y :: ys
    else y :: sInsert x ys

/-- `sortBlindSpotsBySeverity`: JS `Array.prototype.sort` with comparator
`severityOrder[a] - severityOrder[b]`.  ES2019 requires `sort` to be stable,
and a stable sort's output is uniquely determined by the comparator, so a
stable insertion sort is a faithful model. -/
def sortBlindSpotsBySeverity (blindSpots : List BlindSpot) : List BlindSpot :=
  blindSpots.foldr sInsert []

/-- The recommendation strings pushed for one blind spot, in source order
(the `switch` on `category` with `gap.includes` guards). -/
def recsFor (bs : BlindSpot) : List String :=
  if bs.category = "age" then
    (if jsIncludes bs.gap.data "pediatric".data || jsIncludes bs.gap.data "0-18".data then
      ["Design studies that safely include pediatric populations (children and adolescents) where ethically appropriate."]
    else [])
    ++ (if jsIncludes bs.gap.data "elderly".data || jsIncludes bs.gap.data ">75".data then
      ["Include participants over 75 years old in clinical trials to understand treatment efficacy in very elderly populations."]
    else [])
  else if bs.category = "gender" then
    (if jsIncludes bs.gap.data "poor".data || jsIncludes bs.gap.data "reporting".data then
      ["Improve reporting of gender distribution and conduct sex-disaggregated analysis in all studies."]
    else [])
    ++ (if jsIncludes bs.gap.data "female".data then
      ["Increase recruitment of female participants to ensure findings are generalizable across sexes."]
    else [])
    ++ (if jsIncludes bs.gap.data "male".data then
      ["Increase recruitment of male participants to ensure findings are generalizable across sexes."]
    else [])
  else if bs.category = "pregnancy" then
    (if jsIncludes bs.gap.data "pregnant".data then
      ["Where ethically appropriate and safe, include pregnant women in research to understand treatment effects during pregnancy."]
    else [])
  else if bs.category = "geography" then
    (if jsIncludes bs.gap.data "Asia".data then
      ["Conduct multi-center studies including Asian populations to improve global representativeness."]
    else [])
    ++ (if jsIncludes bs.gap.data "diversity".data then
      ["Expand geographic diversity in research to ensure findings apply across different populations and healthcare systems."]
    else [])
  else []

/-- The full recommendation stream produced by iterating the blind spots. -/
def producedRecs : List BlindSpot → List String
  | [] => []
  | bs :: rest => recsFor bs ++ producedRecs rest

/-- `[...new Set(l)]`: keep the first occurrence of every string, in order. -/
def setDedup : List String → List String
  | [] => []
  | x :: xs => x :: setDedup (xs.filter (fun y => y != x))
termination_by l => l.length
decreasing_by
  simp only [List.length_cons]
  exact Nat.lt_succ_of_le (List.length_filter_le _ _)

/-- `generateRecommendations`: push per-category template sentences, then
deduplicate with a `Set` and cap at 5. -/
def generateRecommendations (blindSpots : List BlindSpot) : List String :=
  (setDedup (producedRecs blindSpots)).take 5

/-! ## Concrete sample papers used in witnesses and counterexamples -/

/-- Overall score exactly `0.5`: recency 1 (current year), relevance 0,
source `Other` (0.5): `0.4 + 0 + 0.1 = 0.5`. -/
def pHalf : PaperMetadata :=
  ⟨"", "x", [], "", "2025", "y", .Other, none, none⟩

/-- Overall score `0.42 < 0.5`: recency 0.8 (four years old), relevance 0,
source `Other`. -/
def pLow : PaperMetadata :=
  ⟨"", "x", [], "", "2021", "y", .Other, none, none⟩

/-- A paper whose publication year does not parse (`parseInt` gives NaN). -/
def pBad : PaperMetadata :=
  ⟨"", "x", [], "", "unknown", "y", .Other, none, none⟩

/-- A paper whose title mentions a pediatric (0-18) keyword. -/
def pPed : PaperMetadata :=
  ⟨"", "pediatric", [], "", "2025", "a", .PubMed, none, none⟩

/-- A paper matching no demographic keyword at all. -/
def pPlain : PaperMetadata :=
  ⟨"", "b", [], "", "2025", "a", .PubMed, none, none⟩

/-- Ten high-quality papers of which exactly one mentions "pediatric". -/
def tenPapers : List PaperMetadata :=
  pPed :: List.replicate 9 pPlain

/-- A high-severity pediatric blind spot, used to exercise the
recommendation generator. -/
def bsPed : BlindSpot :=
  ⟨"age", "Very low coverage of pediatric populations", .high, none⟩

section

attribute [local semireducible] Rat.mul Rat.add Rat.inv Rat.sub

/-- Claim C1: for every paper and query, the `overallScore` returned by
`assessPaper` equals `0.4 * recencyScore + 0.4 * textRelevanceScore +
0.2 * sourceScore`, where the three sub-scores are the ones recorded in the
same assessment (NaN propagating as in JS). -/
theorem claim_C1 (currentYear : ℤ) (paper : PaperMetadata) (diseaseQuery : String) :
    (assessPaper currentYear paper diseaseQuery).overallScore =
      nanAdd (nanAdd
          (nanMul (2/5) (assessPaper currentYear paper diseaseQuery).recencyScore)
          (nanMul (2/5) (some (assessPaper currentYear paper diseaseQuery).textRelevanceScore)))
        (nanMul (1/5) (some (assessPaper currentYear paper diseaseQuery).sourceScore)) := rfl

/-- Claim C2: the high-quality subset consists of exactly the input papers
whose `overallScore >= 0.5`; a paper scoring exactly `0.5` is kept, a paper
scoring strictly below `0.5` is dropped. -/
theorem claim_C2 (currentYear : ℤ) (papers : List PaperMetadata) (disease : String)
    (p : PaperMetadata) :
    (p ∈ (qualityAssessmentAgent currentYear papers disease).highQualityPapers ↔
      p ∈ papers ∧
        nanGe (assessPaper currentYear p disease).overallScore QUALITY_THRESHOLD = true)
    ∧ ((assessPaper currentYear p disease).overallScore = some (1/2) → p ∈ papers →
        p ∈ (qualityAssessmentAgent currentYear papers disease).highQualityPapers)
    ∧ (∀ v : ℚ, (assessPaper currentYear p disease).overallScore = some v → v < 1/2 →
        p ∉ (qualityAssessmentAgent currentYear papers disease).highQualityPapers) := by
  have hmem : p ∈ (qualityAssessmentAgent currentYear papers disease).highQualityPapers ↔
      p ∈ papers ∧
        nanGe (assessPaper currentYear p disease).overallScore QUALITY_THRESHOLD = true := by
    simp [qualityAssessmentAgent, List.mem_filter]
  refine ⟨hmem, ?_, ?_⟩
  · intro hscore hp
    exact hmem.2 ⟨hp, by simp [nanGe, hscore, QUALITY_THRESHOLD]⟩
  · intro v hscore hlt hp
    have := (hmem.1 hp).2
    rw [hscore] at this
    simp only [nanGe, QUALITY_THRESHOLD, decide_eq_true_eq] at this
    exact absurd this (not_le.mpr hlt)

theorem claim_C2_witness :
    pHalf ∈ (qualityAssessmentAgent 2025 [pHalf, pLow] "alzheimer").highQualityPapers
    ∧ pLow ∉ (qualityAssessmentAgent 2025 [pHalf, pLow] "alzheimer").highQualityPapers :=
  ⟨(claim_C2 2025 [pHalf, pLow] "alzheimer" pHalf).2.1 (by decide) (by decide),
   (claim_C2 2025 [pHalf, pLow] "alzheimer" pLow).2.2 (21/50) (by decide) (by decide)⟩

/-- Claim C3 (code bug): on a paper whose publication date has no parseable
year, `calculateRecencyScore` evaluates `Math.max(0.2, NaN)`, which is NaN,
so both the recency score and the overall score are NaN — outside `[0,1]` —
contradicting the `// 0-1` range documented on `QualityAssessment` and the
claim that an unparseable year still yields a recency score in `[0,1]`. -/
theorem claim_C3 :
    (assessPaper 2025 pBad "alzheimer").recencyScore = none ∧
    (assessPaper 2025 pBad "alzheimer").overallScore = none ∧
    ¬ inUnit (assessPaper 2025 pBad "alzheimer").recencyScore ∧
    ¬ inUnit (assessPaper 2025 pBad "alzheimer").overallScore := by
  have hr : (assessPaper 2025 pBad "alzheimer").recencyScore = none := by decide
  have ho : (assessPaper 2025 pBad "alzheimer").overallScore = none := by decide
  refine ⟨hr, ho, ?_, ?_⟩
  · rintro ⟨q, hq, -⟩
    rw [hr] at hq
    exact Option.noConfusion hq
  · rintro ⟨q, hq, -⟩
    rw [ho] at hq
    exact Option.noConfusion hq

/-! ## Machinery for the pattern-based extractors -/

lemma patFoldl_snd {β : Type} [DecidableEq β] (lower : List Char)
    (patterns : List (β × List (List Char))) (f : β → ℕ) (fl : Bool) :
    (patterns.foldl (patStep lower) (f, fl)).2
      = (fl || patterns.any (patMatched lower)) := by
  induction patterns generalizing f fl with
  | nil => simp
  | cons p ps ih =>
    simp only [List.foldl_cons, List.any_cons]
    by_cases h : patMatched lower p
    · rw [show patStep lower (f, fl) p = (setAt f p.1 (f p.1 + 1), true) from by
        simp [patStep, h]]
      simp [ih, h]
    · rw [show patStep lower (f, fl) p = (f, fl) from by simp [patStep, h]]
      simp [ih, h]

lemma patFoldl_fst {β : Type} [DecidableEq β] (lower : List Char)
    (patterns : List (β × List (List Char))) (f : β → ℕ) (fl : Bool) (b : β) :
    (patterns.foldl (patStep lower) (f, fl)).1 b
      = f b + patterns.countP (fun pat => decide (pat.1 = b) && patMatched lower pat) := by
  induction patterns generalizing f fl with
  | nil => simp
  | cons p ps ih =>
    simp only [List.foldl_cons, List.countP_cons]
    by_cases h : patMatched lower p
    · rw [show patStep lower (f, fl) p = (setAt f p.1 (f p.1 + 1), true) from by
        simp [patStep, h]]
      rw [ih]
      simp only [setAt, h, Bool.and_true, decide_eq_true_eq]
      by_cases hb : p.1 = b
      · subst hb
        simp only [eq_self_iff_true, if_true]
        omega
      · rw [if_neg (fun hh => hb hh.symm), if_neg hb]
        omega
    · rw [show patStep lower (f, fl) p = (f, fl) from by simp [patStep, h]]
      simp [ih, h]

lemma countP_key_le_one {β : Type} [DecidableEq β]
    (patterns : List (β × List (List Char))) (h : (patterns.map Prod.fst).Nodup)
    (b : β) (q : β × List (List Char) → Bool) :
    patterns.countP (fun pat => decide (pat.1 = b) && q pat) ≤ 1 := by
  induction patterns with
  | nil => simp
  | cons p ps ih =>
    rw [List.countP_cons]
    simp only [List.map_cons, List.nodup_cons] at h
    by_cases hb : p.1 = b
    · have hzero : ps.countP (fun pat => decide (pat.1 = b) && q pat) = 0 := by
        rw [List.countP_eq_zero]
        intro pat hpat
        simp only [Bool.and_eq_true, decide_eq_true_eq]
        rintro ⟨h1, -⟩
        apply h.1
        have hmem : pat.1 ∈ ps.map Prod.fst := List.mem_map_of_mem Prod.fst hpat
        rwa [h1, ← hb] at hmem
      rw [hzero]
      split <;> simp
    · have head : (decide (p.1 = b) && q p) = false := by simp [hb]
      rw [head]
      simpa using ih h.2

/-- Closed form of `patternExtract`. -/
lemma patternExtract_apply {β : Type} [DecidableEq β]
    (patterns : List (β × List (List Char))) (nsKey : β) (text : List Char) (b : β) :
    patternExtract patterns nsKey text b =
      if patterns.any (patMatched (lowerStr text)) then
        patterns.countP (fun pat => decide (pat.1 = b) && patMatched (lowerStr text) pat)
      else if b = nsKey then 1 else 0 := by
  have hsnd := patFoldl_snd (lowerStr text) patterns (fun _ => 0) false
  have hfst := patFoldl_fst (lowerStr text) patterns (fun _ => 0) false b
  simp only [Bool.false_or] at hsnd
  unfold patternExtract
  by_cases h : patterns.any (patMatched (lowerStr text))
  · have h2 : (patterns.foldl (patStep (lowerStr text)) (fun _ => 0, false)).2 = true :=
      hsnd.trans h
    rw [h2, if_pos h, if_pos rfl]
    simpa using hfst
  · have h2 : (patterns.foldl (patStep (lowerStr text)) (fun _ => 0, false)).2 = false := by
      rw [hsnd]; exact Bool.eq_false_iff.2 h
    rw [h2, if_neg h, if_neg Bool.false_ne_true]
    have hzero : patterns.countP
        (fun pat => decide (pat.1 = b) && patMatched (lowerStr text) pat) = 0 := by
      rw [List.countP_eq_zero]
      intro pat hpat
      have hm : patMatched (lowerStr text) pat = false :=
        Bool.eq_false_iff.2 (fun hc => h (List.any_eq_true.2 ⟨pat, hpat, hc⟩))
      simp [hm]
    simp [setAt, hfst, hzero]

lemma patternExtract_le_one {β : Type} [DecidableEq β]
    (patterns : List (β × List (List Char))) (nsKey : β)
    (hnodup : (patterns.map Prod.fst).Nodup) (text : List Char) (b : β) :
    patternExtract patterns nsKey text b ≤ 1 := by
  rw [patternExtract_apply]
  split
  · exact countP_key_le_one patterns hnodup b _
  · split <;> simp

lemma patternExtract_ns {β : Type} [DecidableEq β]
    (patterns : List (β × List (List Char))) (nsKey : β)
    (hns : ∀ pat ∈ patterns, pat.1 ≠ nsKey) (text : List Char) :
    patternExtract patterns nsKey text nsKey =
      if patterns.any (patMatched (lowerStr text)) then 0 else 1 := by
  rw [patternExtract_apply]
  by_cases h : patterns.any (patMatched (lowerStr text))
  · rw [if_pos h, if_pos h, List.countP_eq_zero]
    intro pat hpat
    simp [hns pat hpat]
  · rw [if_neg h, if_neg h, if_pos rfl]

lemma patternExtract_matched_exists {β : Type} [DecidableEq β]
    (patterns : List (β × List (List Char))) (nsKey : β)
    (hnodup : (patterns.map Prod.fst).Nodup) (text : List Char)
    (h : patterns.any (patMatched (lowerStr text)) = true) :
    ∃ pat ∈ patterns, patternExtract patterns nsKey text pat.1 = 1 := by
  obtain ⟨pat, hpat, hm⟩ := List.any_eq_true.1 h
  refine ⟨pat, hpat, ?_⟩
  rw [patternExtract_apply, if_pos h]
  have hpos : 0 < patterns.countP
      (fun q => decide (q.1 = pat.1) && patMatched (lowerStr text) q) :=
    List.countP_pos_iff.2 ⟨pat, hpat, by simp [hm]⟩
  have hle := countP_key_le_one patterns hnodup pat.1 (patMatched (lowerStr text))
  omega

lemma extractGender_le_one (text : List Char) (b : GenderBucket) :
    extractGenderCoverage text b ≤ 1 := by
  cases b <;> (simp only [extractGenderCoverage]; split <;> simp)

lemma extractPregnancy_le_one (text : List Char) (b : PregnancyBucket) :
    extractPregnancyCoverage text b ≤ 1 := by
  cases b <;> (simp only [extractPregnancyCoverage]; first
    | (split <;> simp)
    | simp)

/-- A list of values each at most 1 sums to the number of ones. -/
lemma sum_eq_countP (papers : List PaperMetadata) (f : PaperMetadata → ℕ)
    (hb : ∀ p ∈ papers, f p ≤ 1) :
    (papers.map f).sum = papers.countP (fun p => f p == 1) := by
  induction papers with
  | nil => simp
  | cons p ps ih =>
    simp only [List.map_cons, List.sum_cons, List.countP_cons]
    have hple := hb p (List.mem_cons_self p ps)
    have ihh := ih (fun q hq => hb q (List.mem_cons_of_mem p hq))
    interval_cases h : f p <;> (simp [ihh]; try omega)

lemma aggregateCoverage_eq_round {β : Type} (papers : List PaperMetadata)
    (extractor : List Char → β → ℕ) (b : β)
    (hle : ∀ text, extractor text b ≤ 1) :
    aggregateCoverage papers extractor b =
      jsRound (100 * (papers.countP (fun p => extractor (paperText p) b == 1) : ℚ)
        / (papers.length : ℚ)) := by
  show jsRound ((((papers.map (fun p => extractor (paperText p) b)).sum : ℚ)
      / (papers.length : ℚ)) * 100) = _
  rw [sum_eq_countP papers (fun p => extractor (paperText p) b)
    (fun p _ => hle (paperText p))]
  rw [div_mul_eq_mul_div, mul_comm]

/-! ## Per-dimension extraction facts -/

lemma extractAge_ns_val (text : List Char) :
    extractAgeCoverage text .notSpecified
      = if agePatterns.any (patMatched (lowerStr text)) then 0 else 1 :=
  patternExtract_ns agePatterns .notSpecified (by decide) text

lemma extractAge_real_zero (text : List Char)
    (h : agePatterns.any (patMatched (lowerStr text)) = false)
    (b : AgeBucket) (hb : b ≠ AgeBucket.notSpecified) :
    extractAgeCoverage text b = 0 := by
  rw [show extractAgeCoverage text b = patternExtract agePatterns .notSpecified text b
    from rfl, patternExtract_apply, h]
  simp [hb]

lemma extractAge_ns_iff (text : List Char) :
    extractAgeCoverage text .notSpecified = 1 ↔
      (extractAgeCoverage text .a0_18 = 0 ∧ extractAgeCoverage text .a18_65 = 0 ∧
       extractAgeCoverage text .a65_75 = 0 ∧ extractAgeCoverage text .over75 = 0) := by
  rw [extractAge_ns_val]
  cases hany : agePatterns.any (patMatched (lowerStr text))
  · rw [if_neg Bool.false_ne_true]
    constructor
    · intro _
      exact ⟨extractAge_real_zero text hany _ (by decide),
        extractAge_real_zero text hany _ (by decide),
        extractAge_real_zero text hany _ (by decide),
        extractAge_real_zero text hany _ (by decide)⟩
    · intro _
      rfl
  · rw [if_pos rfl]
    constructor
    · intro h01
      exact absurd h01 (by decide)
    · rintro ⟨h1, h2, h3, h4⟩
      obtain ⟨pat, hpat, hval⟩ :=
        patternExtract_matched_exists agePatterns .notSpecified (by decide) text hany
      have hval' : extractAgeCoverage text pat.1 = 1 := hval
      simp only [agePatterns, List.mem_cons, List.not_mem_nil, or_false] at hpat
      rcases hpat with rfl | rfl | rfl | rfl <;> dsimp only at hval' <;> omega

lemma extractGeo_ns_val (text : List Char) :
    extractGeographyCoverage text .notSpecified
      = if geoPatterns.any (patMatched (lowerStr text)) then 0 else 1 :=
  patternExtract_ns geoPatterns .notSpecified (by decide) text

lemma extractGeo_real_zero (text : List Char)
    (h : geoPatterns.any (patMatched (lowerStr text)) = false)
    (b : GeoBucket) (hb : b ≠ GeoBucket.notSpecified) :
    extractGeographyCoverage text b = 0 := by
  rw [show extractGeographyCoverage text b = patternExtract geoPatterns .notSpecified text b
    from rfl, patternExtract_apply, h]
  simp [hb]

lemma extractGeo_ns_iff (text : List Char) :
    extractGeographyCoverage text .notSpecified = 1 ↔
      (extractGeographyCoverage text .northAmerica = 0 ∧
       extractGeographyCoverage text .europe = 0 ∧
       extractGeographyCoverage text .asia = 0 ∧
       extractGeographyCoverage text .other = 0) := by
  rw [extractGeo_ns_val]
  cases hany : geoPatterns.any (patMatched (lowerStr text))
  · rw [if_neg Bool.false_ne_true]
    constructor
    · intro _
      exact ⟨extractGeo_real_zero text hany _ (by decide),
        extractGeo_real_zero text hany _ (by decide),
        extractGeo_real_zero text hany _ (by decide),
        extractGeo_real_zero text hany _ (by decide)⟩
    · intro _
      rfl
  · rw [if_pos rfl]
    constructor
    · intro h01
      exact absurd h01 (by decide)
    · rintro ⟨h1, h2, h3, h4⟩
      obtain ⟨pat, hpat, hval⟩ :=
        patternExtract_matched_exists geoPatterns .notSpecified (by decide) text hany
      have hval' : extractGeographyCoverage text pat.1 = 1 := hval
      simp only [geoPatterns, List.mem_cons, List.not_mem_nil, or_false] at hpat
      rcases hpat with rfl | rfl | rfl | rfl <;> dsimp only at hval' <;> omega

lemma extractGender_ns_iff (text : List Char) :
    extractGenderCoverage text .notSpecified = 1 ↔
      (extractGenderCoverage text .male = 0 ∧ extractGenderCoverage text .female = 0) := by
  cases h1 : maleKeywords.any (fun keyword => jsIncludes (lowerStr text) keyword) <;>
  cases h2 : femaleKeywords.any (fun keyword => jsIncludes (lowerStr text) keyword) <;>
    simp [extractGenderCoverage, h1, h2]

lemma extractPregnancy_ns_iff (text : List Char) :
    extractPregnancyCoverage text .notSpecified = 1 ↔
      extractPregnancyCoverage text .pregnant = 0 := by
  cases h : pregnancyKeywords.any (fun keyword => jsIncludes (lowerStr text) keyword) <;>
    simp [extractPregnancyCoverage, h]

/-! ## Claims C5, C6, C7, C10 -/

/-- Claim C5: on an empty high-quality paper list the population analysis
agent returns exactly one blind spot, of category "data" and severity
critical, with 100% `not_specified` and 0% elsewhere in all four
dimensions; the final inequality shows the threshold rules were skipped
(they would have produced a different list on that coverage). -/
theorem claim_C5 :
    (populationAnalysisAgent []).blindSpots =
      [⟨"data", "No analyzable papers available", Severity.critical,
        some "Cannot perform population analysis without high-quality papers"⟩]
    ∧ (populationAnalysisAgent []).totalPapersAnalyzed = 0
    ∧ (populationAnalysisAgent []).populationCoverage.age .notSpecified = 100
    ∧ (populationAnalysisAgent []).populationCoverage.age .a0_18 = 0
    ∧ (populationAnalysisAgent []).populationCoverage.age .a18_65 = 0
    ∧ (populationAnalysisAgent []).populationCoverage.age .a65_75 = 0
    ∧ (populationAnalysisAgent []).populationCoverage.age .over75 = 0
    ∧ (populationAnalysisAgent []).populationCoverage.gender .notSpecified = 100
    ∧ (populationAnalysisAgent []).populationCoverage.gender .male = 0
    ∧ (populationAnalysisAgent []).populationCoverage.gender .female = 0
    ∧ (populationAnalysisAgent []).populationCoverage.pregnancyStatus .notSpecified = 100
    ∧ (populationAnalysisAgent []).populationCoverage.pregnancyStatus .pregnant = 0
    ∧ (populationAnalysisAgent []).populationCoverage.pregnancyStatus .notPregnant = 0
    ∧ (populationAnalysisAgent []).populationCoverage.geography .notSpecified = 100
    ∧ (populationAnalysisAgent []).populationCoverage.geography .northAmerica = 0
    ∧ (populationAnalysisAgent []).populationCoverage.geography .europe = 0
    ∧ (populationAnalysisAgent []).populationCoverage.geography .asia = 0
    ∧ (populationAnalysisAgent []).populationCoverage.geography .other = 0
    ∧ (populationAnalysisAgent []).blindSpots
        ≠ detectBlindSpots (populationAnalysisAgent []).populationCoverage := by
  decide

/-- Claim C6: for a non-empty high-quality list, every aggregated coverage
percentage equals `round(100 * matching_paper_count / total_paper_count)`,
where the matching count counts papers whose per-paper extraction put a 1
in that bucket. -/
theorem claim_C6 (papers : List PaperMetadata) (_hne : papers ≠ []) :
    (∀ b : AgeBucket, aggregateCoverage papers extractAgeCoverage b =
      jsRound (100 * (papers.countP
        (fun p => extractAgeCoverage (paperText p) b == 1) : ℚ) / (papers.length : ℚ)))
    ∧ (∀ b : GenderBucket, aggregateCoverage papers extractGenderCoverage b =
      jsRound (100 * (papers.countP
        (fun p => extractGenderCoverage (paperText p) b == 1) : ℚ) / (papers.length : ℚ)))
    ∧ (∀ b : PregnancyBucket, aggregateCoverage papers extractPregnancyCoverage b =
      jsRound (100 * (papers.countP
        (fun p => extractPregnancyCoverage (paperText p) b == 1) : ℚ) / (papers.length : ℚ)))
    ∧ (∀ b : GeoBucket, aggregateCoverage papers extractGeographyCoverage b =
      jsRound (100 * (papers.countP
        (fun p => extractGeographyCoverage (paperText p) b == 1) : ℚ) / (papers.length : ℚ))) := by
  refine ⟨fun b => ?_, fun b => ?_, fun b => ?_, fun b => ?_⟩
  · exact aggregateCoverage_eq_round papers extractAgeCoverage b
      (fun t => patternExtract_le_one agePatterns .notSpecified (by decide) t b)
  · exact aggregateCoverage_eq_round papers extractGenderCoverage b
      (fun t => extractGender_le_one t b)
  · exact aggregateCoverage_eq_round papers extractPregnancyCoverage b
      (fun t => extractPregnancy_le_one t b)
  · exact aggregateCoverage_eq_round papers extractGeographyCoverage b
      (fun t => patternExtract_le_one geoPatterns .notSpecified (by decide) t b)

theorem claim_C6_witness :
    aggregateCoverage [pPed] extractAgeCoverage .a0_18 =
      jsRound (100 * (([pPed] : List PaperMetadata).countP
        (fun p => extractAgeCoverage (paperText p) AgeBucket.a0_18 == 1) : ℚ)
        / (([pPed] : List PaperMetadata).length : ℚ)) :=
  (claim_C6 [pPed] (by simp)).1 AgeBucket.a0_18

/-- Claim C7: per paper and dimension, every bucket count is 0 or 1 however
many keywords occur; `not_specified` is 1 exactly when no real bucket of
that dimension matched (so it never coexists with a real match), while
distinct real buckets can all be 1 together (witnessed for age). -/
theorem claim_C7 (text : List Char) :
    (∀ b, extractAgeCoverage text b ≤ 1)
    ∧ (extractAgeCoverage text .notSpecified = 1 ↔
        (extractAgeCoverage text .a0_18 = 0 ∧ extractAgeCoverage text .a18_65 = 0 ∧
         extractAgeCoverage text .a65_75 = 0 ∧ extractAgeCoverage text .over75 = 0))
    ∧ ¬(extractAgeCoverage text .notSpecified = 1 ∧
        (extractAgeCoverage text .a0_18 = 1 ∨ extractAgeCoverage text .a18_65 = 1 ∨
         extractAgeCoverage text .a65_75 = 1 ∨ extractAgeCoverage text .over75 = 1))
    ∧ (∀ b, extractGenderCoverage text b ≤ 1)
    ∧ (extractGenderCoverage text .notSpecified = 1 ↔
        (extractGenderCoverage text .male = 0 ∧ extractGenderCoverage text .female = 0))
    ∧ ¬(extractGenderCoverage text .notSpecified = 1 ∧
        (extractGenderCoverage text .male = 1 ∨ extractGenderCoverage text .female = 1))
    ∧ (∀ b, extractGeographyCoverage text b ≤ 1)
    ∧ (extractGeographyCoverage text .notSpecified = 1 ↔
        (extractGeographyCoverage text .northAmerica = 0 ∧
         extractGeographyCoverage text .europe = 0 ∧
         extractGeographyCoverage text .asia = 0 ∧
         extractGeographyCoverage text .other = 0))
    ∧ ¬(extractGeographyCoverage text .notSpecified = 1 ∧
        (extractGeographyCoverage text .northAmerica = 1 ∨
         extractGeographyCoverage text .europe = 1 ∨
         extractGeographyCoverage text .asia = 1 ∨
         extractGeographyCoverage text .other = 1))
    ∧ (∀ b, extractPregnancyCoverage text b ≤ 1)
    ∧ (extractPregnancyCoverage text .notSpecified = 1 ↔
        extractPregnancyCoverage text .pregnant = 0)
    ∧ (∃ t : List Char, extractAgeCoverage t .a0_18 = 1 ∧ extractAgeCoverage t .a18_65 = 1 ∧
        extractAgeCoverage t .a65_75 = 1 ∧ extractAgeCoverage t .over75 = 1) := by
  refine ⟨fun b => patternExtract_le_one agePatterns .notSpecified (by decide) text b,
    extractAge_ns_iff text, ?_,
    fun b => extractGender_le_one text b,
    extractGender_ns_iff text, ?_,
    fun b => patternExtract_le_one geoPatterns .notSpecified (by decide) text b,
    extractGeo_ns_iff text, ?_,
    fun b => extractPregnancy_le_one text b,
    extractPregnancy_ns_iff text,
    ⟨"child adult elderly very old".data, by decide, by decide, by decide, by decide⟩⟩
  · rintro ⟨hns, hone⟩
    have hz := (extractAge_ns_iff text).1 hns
    rcases hone with h | h | h | h <;> omega
  · rintro ⟨hns, hone⟩
    have hz := (extractGender_ns_iff text).1 hns
    rcases hone with h | h <;> omega
  · rintro ⟨hns, hone⟩
    have hz := (extractGeo_ns_iff text).1 hns
    rcases hone with h | h | h | h <;> omega

theorem claim_C7_witness :
    extractAgeCoverage "pediatric study".data AgeBucket.a0_18 ≤ 1 :=
  (claim_C7 "pediatric study".data).1 AgeBucket.a0_18

/-- Claim C10: the `not_pregnant` bucket is never populated by the keyword
strategy: each paper gets `pregnant = 1` or `not_specified = 1`, exclusively,
and `not_pregnant` is always 0, so its aggregated coverage is 0%. -/
theorem claim_C10 (papers : List PaperMetadata) (_hne : papers ≠ []) :
    aggregateCoverage papers extractPregnancyCoverage .notPregnant = 0
    ∧ (∀ text, extractPregnancyCoverage text .notPregnant = 0)
    ∧ (∀ text,
        (extractPregnancyCoverage text .pregnant = 1 ∧
          extractPregnancyCoverage text .notSpecified = 0)
        ∨ (extractPregnancyCoverage text .pregnant = 0 ∧
          extractPregnancyCoverage text .notSpecified = 1)) := by
  refine ⟨?_, fun text => rfl, fun text => ?_⟩
  · have hz : (papers.map
        (fun p => extractPregnancyCoverage (paperText p) .notPregnant)).sum = 0 := by
      clear _hne
      induction papers with
      | nil => rfl
      | cons p ps ih =>
        simp only [List.map_cons, List.sum_cons, ih]
        rfl
    show jsRound ((((papers.map
      (fun p => extractPregnancyCoverage (paperText p) .notPregnant)).sum : ℚ)
      / (papers.length : ℚ)) * 100) = 0
    simp only [hz, Nat.cast_zero, zero_div, zero_mul]
    decide
  · cases h : pregnancyKeywords.any (fun keyword => jsIncludes (lowerStr text) keyword)
    · right
      constructor <;> simp [extractPregnancyCoverage, h]
    · left
      constructor <;> simp [extractPregnancyCoverage, h]

theorem claim_C10_witness :
    aggregateCoverage [pPlain] extractPregnancyCoverage .notPregnant = 0 :=
  (claim_C10 [pPlain] (by simp)).1

/-! ## Claim C4: the exactly-10% pediatric boundary -/

/-- When the 0-18 coverage is neither `0` nor `< 10`, no rule of
`detectBlindSpots` produces a pediatric blind spot. -/
lemma detect_no_pediatric (cov : PopulationCoverage)
    (h0 : cov.age .a0_18 ≠ 0) (h10 : ¬ cov.age .a0_18 < 10) :
    (detectBlindSpots cov).all
      (fun bs => !(bs.gap == "Very low coverage of pediatric populations"
        || bs.gap == "No coverage of pediatric populations (0-18 years)")) = true := by
  unfold detectBlindSpots
  rw [if_neg h0, if_neg h10]
  simp only [List.nil_append, List.all_append, Bool.and_eq_true]
  repeat' apply And.intro
  all_goals (try split)
  all_goals (try split)
  all_goals simp

/-- Claim C4 (amended): for ten high-quality papers of which exactly one
matches a 0-18 keyword, the aggregated 0-18 coverage is 10%, and the
detector emits NO pediatric (0-18) blind spot at all: the critical rule
needs `= 0` and the high rule needs `< 10`, both false at exactly 10. -/
theorem claim_C4 (papers : List PaperMetadata)
    (hlen : papers.length = 10)
    (hone : papers.countP (fun p => extractAgeCoverage (paperText p) .a0_18 == 1) = 1) :
    aggregateCoverage papers extractAgeCoverage .a0_18 = 10
    ∧ (populationAnalysisAgent papers).blindSpots.all
        (fun bs => !(bs.gap == "Very low coverage of pediatric populations"
          || bs.gap == "No coverage of pediatric populations (0-18 years)")) = true := by
  have hagg : aggregateCoverage papers extractAgeCoverage .a0_18 = 10 := by
    rw [aggregateCoverage_eq_round papers extractAgeCoverage _
      (fun t => patternExtract_le_one agePatterns .notSpecified (by decide) t _)]
    rw [hone, hlen]
    decide
  refine ⟨hagg, ?_⟩
  have hne : ¬ papers.isEmpty = true := by
    intro h
    rw [List.isEmpty_iff.1 h] at hlen
    exact absurd hlen (by decide)
  unfold populationAnalysisAgent
  rw [if_neg hne]
  exact detect_no_pediatric (analysisCoverage papers)
    (by show aggregateCoverage papers extractAgeCoverage .a0_18 ≠ 0; rw [hagg]; decide)
    (by show ¬ aggregateCoverage papers extractAgeCoverage .a0_18 < 10; rw [hagg]; decide)

/-- Claim C4 (counterexample to the original claim): on ten concrete
high-quality papers of which exactly one mentions "pediatric", the 0-18
coverage is exactly 10%, yet the blind-spot list contains neither pediatric
gap — in particular no high-severity 0-18 blind spot is emitted. -/
theorem claim_C4_counterexample :
    tenPapers.length = 10
    ∧ tenPapers.countP (fun p => extractAgeCoverage (paperText p) .a0_18 == 1) = 1
    ∧ aggregateCoverage tenPapers extractAgeCoverage .a0_18 = 10
    ∧ (populationAnalysisAgent tenPapers).blindSpots.all
        (fun bs => !(bs.gap == "Very low coverage of pediatric populations"
          || bs.gap == "No coverage of pediatric populations (0-18 years)")) = true := by
  decide

theorem claim_C4_witness :
    aggregateCoverage tenPapers extractAgeCoverage .a0_18 = 10
    ∧ (populationAnalysisAgent tenPapers).blindSpots.all
        (fun bs => !(bs.gap == "Very low coverage of pediatric populations"
          || bs.gap == "No coverage of pediatric populations (0-18 years)")) = true :=
  claim_C4 tenPapers (by decide) (by decide)

/-! ## Claim C8: sorting blind spots by severity -/

lemma mem_sInsert (x z : BlindSpot) (l : List BlindSpot) :
    z ∈ sInsert x l ↔ z = x ∨ z ∈ l := by
  induction l with
  | nil => simp [sInsert]
  | cons y ys ih =>
    rw [sInsert]
    split
    · simp [List.mem_cons]
    · simp only [List.mem_cons, ih]
      tauto

lemma sorted_sInsert (x : BlindSpot) (l : List BlindSpot)
    (h : l.Pairwise (fun a b => severityOrder a.severity ≤ severityOrder b.severity)) :
    (sInsert x l).Pairwise
      (fun a b => severityOrder a.severity ≤ severityOrder b.severity) := by
  induction l with
  | nil => simp [sInsert]
  | cons y ys ih =>
    rcases List.pairwise_cons.1 h with ⟨hy, hys⟩
    rw [sInsert]
    split
    case isTrue hle =>
      refine List.pairwise_cons.2 ⟨?_, h⟩
      intro z hz
      rcases List.mem_cons.1 hz with rfl | hz'
      · exact hle
      · exact le_trans hle (hy z hz')
    case isFalse hle =>
      refine List.pairwise_cons.2 ⟨?_, ih hys⟩
      intro z hz
      rcases (mem_sInsert x z ys).1 hz with rfl | hz'
      · exact le_of_not_le hle
      · exact hy z hz'

lemma sorted_sort (l : List BlindSpot) :
    (sortBlindSpotsBySeverity l).Pairwise
      (fun a b => severityOrder a.severity ≤ severityOrder b.severity) := by
  induction l with
  | nil => simp [sortBlindSpotsBySeverity]
  | cons x xs ih => exact sorted_sInsert x _ ih

lemma filter_sInsert (x : BlindSpot) (l : List BlindSpot) (s : Severity) :
    (sInsert x l).filter (fun bs => bs.severity == s)
      = if x.severity == s then x :: l.filter (fun bs => bs.severity == s)
        else l.filter (fun bs => bs.severity == s) := by
  induction l with
  | nil =>
    rw [sInsert]
    cases h : x.severity == s <;> simp [List.filter_cons, h]
  | cons y ys ih =>
    rw [sInsert]
    split
    case isTrue hle =>
      cases h : x.severity == s <;> simp [List.filter_cons, h]
    case isFalse hle =>
      cases h : x.severity == s
      · simp [List.filter_cons, ih, h]
      · have hy : (y.severity == s) = false := by
          cases hyv : y.severity == s
          · rfl
          · exfalso
            apply hle
            have h1 : x.severity = s := by simpa using h
            have h2 : y.severity = s := by simpa using hyv
            rw [h1, h2]
        simp [List.filter_cons, ih, h, hy]

lemma sort_filter (l : List BlindSpot) (s : Severity) :
    (sortBlindSpotsBySeverity l).filter (fun bs => bs.severity == s)
      = l.filter (fun bs => bs.severity == s) := by
  induction l with
  | nil => rfl
  | cons x xs ih =>
    show (sInsert x (sortBlindSpotsBySeverity xs)).filter _ = _
    rw [filter_sInsert]
    cases h : x.severity == s <;> simp [List.filter_cons, h, ih]

lemma sInsert_of_le (x : BlindSpot) (l : List BlindSpot)
    (hall : ∀ y ∈ l, severityOrder x.severity ≤ severityOrder y.severity) :
    sInsert x l = x :: l := by
  cases l with
  | nil => rfl
  | cons y ys => rw [sInsert, if_pos (hall y (List.mem_cons_self y ys))]

lemma sort_of_sorted (l : List BlindSpot)
    (h : l.Pairwise (fun a b => severityOrder a.severity ≤ severityOrder b.severity)) :
    sortBlindSpotsBySeverity l = l := by
  induction l with
  | nil => rfl
  | cons x xs ih =>
    rcases List.pairwise_cons.1 h with ⟨hx, hxs⟩
    show sInsert x (sortBlindSpotsBySeverity xs) = x :: xs
    rw [ih hxs, sInsert_of_le x xs hx]

lemma perm_sInsert (x : BlindSpot) (l : List BlindSpot) :
    List.Perm (sInsert x l) (x :: l) := by
  induction l with
  | nil => exact List.Perm.refl _
  | cons y ys ih =>
    rw [sInsert]
    split
    · exact List.Perm.refl _
    · exact (ih.cons y).trans (List.Perm.swap x y ys)

lemma perm_sort (l : List BlindSpot) : List.Perm (sortBlindSpotsBySeverity l) l := by
  induction l with
  | nil => exact List.Perm.refl _
  | cons x xs ih => exact (perm_sInsert x _).trans (ih.cons x)

/-- Claim C8: sorting blind spots is a permutation that orders them by the
fixed severity ranking critical < high < medium < low, is stable (the
subsequence of each severity is unchanged), and is idempotent. -/
theorem claim_C8 (l : List BlindSpot) :
    ((sortBlindSpotsBySeverity l).Pairwise
      (fun a b => severityOrder a.severity ≤ severityOrder b.severity))
    ∧ (∀ s : Severity, (sortBlindSpotsBySeverity l).filter (fun bs => bs.severity == s)
        = l.filter (fun bs => bs.severity == s))
    ∧ sortBlindSpotsBySeverity (sortBlindSpotsBySeverity l) = sortBlindSpotsBySeverity l
    ∧ List.Perm (sortBlindSpotsBySeverity l) l
    ∧ (severityOrder .critical < severityOrder .high
       ∧ severityOrder .high < severityOrder .medium
       ∧ severityOrder .medium < severityOrder .low) :=
  ⟨sorted_sort l, fun s => sort_filter l s, sort_of_sorted _ (sorted_sort l),
    perm_sort l, by decide⟩

/-! ## Claim C9: the recommendation list -/

lemma mem_setDedup (l : List String) (y : String) : y ∈ setDedup l ↔ y ∈ l := by
  induction l using setDedup.induct with
  | case1 => simp [setDedup]
  | case2 x xs ih =>
    rw [setDedup]
    simp only [List.mem_cons, ih, List.mem_filter, bne_iff_ne, ne_eq]
    by_cases hyx : y = x
    · simp [hyx]
    · simp [hyx]

lemma nodup_setDedup (l : List String) : (setDedup l).Nodup := by
  induction l using setDedup.induct with
  | case1 => simp [setDedup]
  | case2 x xs ih =>
    rw [setDedup]
    refine List.nodup_cons.2 ⟨?_, ih⟩
    intro hx
    have hmem := (mem_setDedup _ x).1 hx
    simp [List.mem_filter] at hmem

lemma indexOf_filter_lt (p : String → Bool) (xs : List String) :
    ∀ y z : String, y ∈ xs.filter p → z ∈ xs.filter p →
      (xs.filter p).indexOf y < (xs.filter p).indexOf z →
      xs.indexOf y < xs.indexOf z := by
  induction xs with
  | nil =>
    intro y z hy _ _
    simp at hy
  | cons a xs ih =>
    intro y z hy hz hlt
    cases hp : p a
    · have hf : (a :: xs).filter p = xs.filter p := by simp [List.filter_cons, hp]
      rw [hf] at hy hz hlt
      have hya : y ≠ a := by
        rintro rfl
        rw [List.mem_filter] at hy
        rw [hy.2] at hp
        exact Bool.noConfusion hp
      have hza : z ≠ a := by
        rintro rfl
        rw [List.mem_filter] at hz
        rw [hz.2] at hp
        exact Bool.noConfusion hp
      rw [List.indexOf_cons_ne xs (Ne.symm hya), List.indexOf_cons_ne xs (Ne.symm hza)]
      exact Nat.succ_lt_succ (ih y z hy hz hlt)
    · have hf : (a :: xs).filter p = a :: xs.filter p := by simp [List.filter_cons, hp]
      rw [hf] at hy hz hlt
      by_cases hza : z = a
      · subst hza
        rw [List.indexOf_cons_self] at hlt
        exact absurd hlt (Nat.not_lt_zero _)
      · by_cases hya : y = a
        · subst hya
          rw [List.indexOf_cons_self, List.indexOf_cons_ne xs (Ne.symm hza)]
          exact Nat.succ_pos _
        · rw [List.indexOf_cons_ne _ (Ne.symm hya),
            List.indexOf_cons_ne _ (Ne.symm hza)] at hlt
          have hy' : y ∈ xs.filter p := by
            rcases List.mem_cons.1 hy with rfl | h
            · exact absurd rfl hya
            · exact h
          have hz' : z ∈ xs.filter p := by
            rcases List.mem_cons.1 hz with rfl | h
            · exact absurd rfl hza
            · exact h
          rw [List.indexOf_cons_ne xs (Ne.symm hya), List.indexOf_cons_ne xs (Ne.symm hza)]
          exact Nat.succ_lt_succ (ih y z hy' hz' (Nat.lt_of_succ_lt_succ hlt))

lemma pairwise_indexOf_setDedup (l : List String) :
    (setDedup l).Pairwise (fun a b => l.indexOf a < l.indexOf b) := by
  induction l using setDedup.induct with
  | case1 => simp [setDedup]
  | case2 x xs ih =>
    rw [setDedup]
    refine List.pairwise_cons.2 ⟨?_, ?_⟩
    · intro y hy
      have hmem := (mem_setDedup _ y).1 hy
      rw [List.mem_filter] at hmem
      have hyx : y ≠ x := by simpa using hmem.2
      rw [List.indexOf_cons_self, List.indexOf_cons_ne xs (Ne.symm hyx)]
      exact Nat.succ_pos _
    · refine List.Pairwise.imp_of_mem ?_ ih
      intro a b ha hb hab
      have ha' := (mem_setDedup _ a).1 ha
      have hb' := (mem_setDedup _ b).1 hb
      have hax : a ≠ x := by
        rw [List.mem_filter] at ha'
        simpa using ha'.2
      have hbx : b ≠ x := by
        rw [List.mem_filter] at hb'
        simpa using hb'.2
      have hxs := indexOf_filter_lt (fun y => y != x) xs a b ha' hb' hab
      rw [List.indexOf_cons_ne xs (Ne.symm hax), List.indexOf_cons_ne xs (Ne.symm hbx)]
      exact Nat.succ_lt_succ hxs

/-- Claim C9: the recommendation list has at most 5 entries, no duplicate
strings, only strings produced by some blind spot, listed in the order of
their first production; every produced string appears unless the 5-entry
cap was reached. -/
theorem claim_C9 (l : List BlindSpot) :
    (generateRecommendations l).length ≤ 5
    ∧ (generateRecommendations l).Nodup
    ∧ (∀ r ∈ generateRecommendations l, r ∈ producedRecs l)
    ∧ (generateRecommendations l).Pairwise
        (fun a b => (producedRecs l).indexOf a < (producedRecs l).indexOf b)
    ∧ (∀ r ∈ producedRecs l, r ∈ generateRecommendations l ∨
        (generateRecommendations l).length = 5) := by
  have hsub : List.Sublist (generateRecommendations l) (setDedup (producedRecs l)) :=
    List.take_sublist 5 _
  refine ⟨?_, ?_, ?_, ?_, ?_⟩
  · rw [generateRecommendations, List.length_take]
    exact min_le_left _ _
  · exact (nodup_setDedup _).sublist hsub
  · intro r hr
    exact (mem_setDedup _ r).1 (hsub.subset hr)
  · exact (pairwise_indexOf_setDedup _).sublist hsub
  · intro r hr
    by_cases hlen : (setDedup (producedRecs l)).length ≤ 5
    · left
      rw [generateRecommendations, List.take_of_length_le hlen]
      exact (mem_setDedup _ r).2 hr
    · right
      rw [generateRecommendations, List.length_take]
      omega

theorem claim_C9_witness :
    "Design studies that safely include pediatric populations (children and adolescents) where ethically appropriate."
        ∈ generateRecommendations [bsPed]
      ∨ (generateRecommendations [bsPed]).length = 5 :=
  (claim_C9 [bsPed]).2.2.2.2 _ (by decide)

end

end MedicalBlindSpot
